import Mathlib

/-!
Shallow embedding of the NVRHI command-recording layer: the resource state
tracker with its pending barrier list (modelled from the specification where
the implementation is not among the sources, only its interface contract in
include/nvrhi/nvrhi.h), and the Vulkan backend's graphics state cache
(CommandList::setGraphicsState and related entry points from
src/vulkan/vulkan-graphics.cpp), which is embedded directly from the source.
Driver interaction is represented as a trace of DriverCall events so that
statements about which calls are issued or elided can be proved.
-/

namespace NVRHI

-- Bitmask values of enum class ResourceStates, include/nvrhi/nvrhi.h lines 349-377.
namespace ResourceStates

def Unknown : Nat := 0x0

def Common : Nat := 0x1

def ConstantBuffer : Nat := 0x2

def VertexBuffer : Nat := 0x4

def IndexBuffer : Nat := 0x8

def IndirectArgument : Nat := 0x10

def ShaderResource : Nat := 0x20

def UnorderedAccess : Nat := 0x40

def RenderTarget : Nat := 0x80

def CopyDest : Nat := 0x800

def CopySource : Nat := 0x1000

def Present : Nat := 0x8000

end ResourceStates

/-- A pending barrier: resource identity plus the state transition it encodes.
Buffers have a single subresource, so the resource id identifies the
subresource as well. -/
structure Barrier where
  resource : Nat
  stateBefore : Nat
  stateAfter : Nat
deriving DecidableEq

/-- Synchronous usage errors of the state tracker (spec section 7). -/
inductive TrackerError where
  | PermanentStateViolation
  | UnknownStateUse
  | AliasingConflict
deriving DecidableEq

/-- Modelled from the spec: the State Tracker of section 4.1 (its
implementation, common/state-tracking.cpp, is not among the sources).
It holds the current-state table, the set of resources pinned permanent as
visible to this recording session, and the pending barrier list. -/
structure StateTracker where
  states : List (Nat × Nat)
  permanent : List (Nat × Nat)
  pendingBarriers : List Barrier
deriving DecidableEq

/-- Current tracked state of a resource; ResourceStates.Unknown when the
resource was never seeded. -/
def lookupState (states : List (Nat × Nat)) (r : Nat) : Nat :=
  match states.find? (fun p => p.1 = r) with
  | some p => p.2
  | none => ResourceStates.Unknown

/-- Update the current-state table entry of a resource, inserting it if
absent (the table representation is internal to the spec-modelled tracker;
any associative update realises it). -/
def setState (states : List (Nat × Nat)) (r v : Nat) : List (Nat × Nat) :=
  (r, v) :: states.filter (fun p => ¬ p.1 = r)

/-- Modelled from the spec: merge-on-insert for the Pending Barrier List
(section 3, Pending Barrier). A new transition for a resource already
pending is merged by updating state-after; otherwise it is appended. -/
def addOrMergeBarrier (pending : List Barrier) (r before after : Nat) : List Barrier :=
  if pending.any (fun b => b.resource = r) then
    pending.map (fun b => if b.resource = r then { b with stateAfter := after } else b)
  else
    pending ++ [{ resource := r, stateBefore := before, stateAfter := after }]

/-- Modelled from the spec: requireState of section 4.1. Permanent resources
admit only their pinned state (anything else is a PermanentStateViolation and
a no-op otherwise); for tracked resources an equal state is a no-op, and a
differing state appends (or merges) a pending barrier and updates the
current-state table immediately. -/
def requireState (t : StateTracker) (r desired : Nat) : Except TrackerError StateTracker :=
  match t.permanent.find? (fun p => p.1 = r) with
  | some p =>
    if desired = p.2 then Except.ok t else Except.error TrackerError.PermanentStateViolation
  | none =>
    let current := lookupState t.states r
    if current = desired then
      Except.ok t
    else
      Except.ok { t with
        states := setState t.states r desired,
        pendingBarriers := addOrMergeBarrier t.pendingBarriers r current desired }

/-- Modelled from the spec: requireState as used from the automatic-barrier
path, where a violation is reported through the diagnostic callback and the
tracker is left unchanged (spec section 7, synchronous reporting). -/
def requireStateNoFail (t : StateTracker) (r desired : Nat) : StateTracker :=
  match requireState t r desired with
  | Except.ok t2 => t2
  | Except.error _ => t

/-- Modelled from the spec: pinPermanent of section 4.1. Requires the
resource to be in the given state (transitioning it there first if needed)
and marks it permanent for this session. -/
def pinPermanent (t : StateTracker) (r state : Nat) : Except TrackerError StateTracker :=
  match t.permanent.find? (fun p => p.1 = r) with
  | some p =>
    if state = p.2 then Except.ok t else Except.error TrackerError.PermanentStateViolation
  | none =>
    let current := lookupState t.states r
    let t2 :=
      if current = state then t
      else { t with
        states := setState t.states r state,
        pendingBarriers := addOrMergeBarrier t.pendingBarriers r current state }
    Except.ok { t2 with permanent := t2.permanent ++ [(r, state)] }

/-- Buffer creation parameters relevant to state tracking
(BufferDesc, include/nvrhi/nvrhi.h lines 695-698). -/
structure BufferDesc where
  initialState : Nat := ResourceStates.Common
  keepInitialState : Bool := false
deriving DecidableEq

/-- A buffer resource: identity plus its immutable descriptor. -/
structure Buffer where
  id : Nat
  desc : BufferDesc
deriving DecidableEq

/-- Modelled from the spec: one recording session of section 4.3 (the command
list implementation is not among the sources). It owns a state tracker, the
permanent pins proposed during recording (committed only at execution, per
the setPermanentTextureState doc comment in include/nvrhi/nvrhi.h lines
3526-3528), the resources flagged to auto-restore their initial state at
close, and the barriers already flushed to the driver. -/
structure Session where
  tracker : StateTracker
  proposedPermanent : List (Nat × Nat)
  trackedKeep : List Buffer
  emitted : List Barrier
deriving DecidableEq

/-- Modelled from the spec: the device-scoped Permanent State Registry of
section 3. -/
structure Device where
  permanentRegistry : List (Nat × Nat)
deriving DecidableEq

/-- Modelled from the spec: opening a recording session creates a fresh
tracker whose permanent set is seeded from the device registry
(section 4.3, open). -/
def Device.openSession (d : Device) : Session :=
  { tracker := { states := [], permanent := d.permanentRegistry, pendingBarriers := [] },
    proposedPermanent := [],
    trackedKeep := [],
    emitted := [] }

/-- Modelled from the spec: setPermanentBufferState during recording. On
success the pin takes effect inside the session at once and is recorded as
proposed for commit at execution time (doc comment of
setPermanentTextureState, include/nvrhi/nvrhi.h lines 3519-3530). -/
def Session.pinPermanentBuffer (sess : Session) (b : Buffer) (state : Nat) :
    Except TrackerError Session :=
  match pinPermanent sess.tracker b.id state with
  | Except.ok t2 =>
    Except.ok { sess with tracker := t2, proposedPermanent := sess.proposedPermanent ++ [(b.id, state)] }
  | Except.error e => Except.error e

/-- Modelled from the spec: executing a closed session commits its proposed
permanent pins to the device registry (include/nvrhi/nvrhi.h lines
3526-3528: permanent state transitions are only applied when the command
list that sets them is executed). -/
def Device.executeSession (d : Device) (sess : Session) : Device :=
  { permanentRegistry := d.permanentRegistry ++ sess.proposedPermanent }

/-- Modelled from the spec: discarding a session without executing it
abandons its proposed permanent pins; the registry is unchanged
(include/nvrhi/nvrhi.h lines 3527-3528 and spec section 5). -/
def Device.discardSession (d : Device) (_sess : Session) : Device :=
  d

/-- Modelled from the spec: a registry entry is removed only when the
resource is destroyed (spec section 3). -/
def Device.destroyResource (d : Device) (r : Nat) : Device :=
  { permanentRegistry := d.permanentRegistry.filter (fun p => decide (p.1 ≠ r)) }

/-- Modelled from the spec: setBufferState on a session. A buffer with
keepInitialState is seeded from its declared initial state on first touch
and flagged for auto-restore at close (BufferDesc doc comment,
include/nvrhi/nvrhi.h lines 695-698, and TextureDesc lines 437-439). -/
def Session.requireBufferState (sess : Session) (b : Buffer) (state : Nat) :
    Except TrackerError Session :=
  let sess2 :=
    if (sess.tracker.states.find? (fun p => p.1 = b.id)).isNone ∧ b.desc.keepInitialState then
      { sess with
        tracker := { sess.tracker with states := setState sess.tracker.states b.id b.desc.initialState },
        trackedKeep := sess.trackedKeep ++ [b] }
    else sess
  match requireState sess2.tracker b.id state with
  | Except.ok t2 => Except.ok { sess2 with tracker := t2 }
  | Except.error e => Except.error e

/-- Modelled from the spec: flush of section 4.1 - the pending barriers are
handed to the backend encoder, in order, and the pending list is cleared. -/
def Session.flushBarriers (sess : Session) : Session :=
  { sess with
    emitted := sess.emitted ++ sess.tracker.pendingBarriers,
    tracker := { sess.tracker with pendingBarriers := [] } }

/-- Modelled from the spec: close of section 4.3 - every resource flagged to
auto-restore its initial state gets a requireState back to that state, then
a final flush runs. -/
def Session.close (sess : Session) : Session :=
  let restored := sess.trackedKeep.foldl
    (fun acc b => { acc with tracker := requireStateNoFail acc.tracker b.id b.desc.initialState })
    sess
  restored.flushBarriers

/-- Modelled from the spec: queryState of section 4.1 (getBufferState). -/
def Session.queryBufferState (sess : Session) (b : Buffer) : Nat :=
  lookupState sess.tracker.states b.id

/-- Modelled from the spec: arraysAreDifferent from
include/nvrhi/common/misc.h (not among the sources), which reports whether
two arrays differ in length or in any element; on lists this is exactly
inequality. -/
def arraysAreDifferent {α : Type} [DecidableEq α] (a b : List α) : Bool :=
  decide (a ≠ b)

/-- The pieces of a vulkan::GraphicsPipeline object read by setGraphicsState:
its identity (standing for the pointer / vk pipeline handle),
desc.renderState.depthStencilState.dynamicStencilRef, and usesBlendConstants.
Identities are assumed distinct per object, so equality of this record
models pointer equality. -/
structure GraphicsPipeline where
  id : Nat
  dynamicStencilRef : Bool
  usesBlendConstants : Bool
deriving DecidableEq

/-- A binding set: identity (pointer) plus, for resource tracking, the
(resource, requiredState) pairs its bindings imply (spec section 4.2). -/
structure BindingSet where
  id : Nat
  resources : List (Nat × Nat)
deriving DecidableEq

/-- A framebuffer: identity (pointer) plus the render-target texture ids it
references (spec section 4.2: render target implies RenderTarget state). -/
structure Framebuffer where
  id : Nat
  targets : List Nat
deriving DecidableEq

/-- VertexBufferBinding, include/nvrhi/nvrhi.h lines 2611-2628. The buffer
field is the buffer id (pointer identity). -/
structure VertexBufferBinding where
  buffer : Nat
  slot : Nat
  offset : Nat
deriving DecidableEq

/-- IndexBufferBinding, include/nvrhi/nvrhi.h lines 2630-2647; buffer none
models the null pointer default. -/
structure IndexBufferBinding where
  buffer : Option Nat := none
  format : Nat := 0
  offset : Nat := 0
deriving DecidableEq

/-- GraphicsState, include/nvrhi/nvrhi.h lines 2652-2678. Viewports,
scissor rects and the blend constant color are abstracted to opaque values
compared for equality, which is all setGraphicsState does with them. -/
structure GraphicsState where
  pipeline : Option GraphicsPipeline := none
  framebuffer : Option Framebuffer := none
  viewports : List Nat := []
  scissorRects : List Nat := []
  shadingRateEnabled : Bool := false
  shadingRateValue : Nat := 0
  blendConstantColor : Nat := 0
  dynamicStencilRefValue : Nat := 0
  bindings : List BindingSet := []
  vertexBuffers : List VertexBufferBinding := []
  indexBuffer : IndexBufferBinding := {}
  indirectParams : Option Nat := none
deriving DecidableEq

/-- ComputeState, include/nvrhi/nvrhi.h lines 2723-2734. -/
structure ComputeState where
  pipeline : Option Nat := none
  bindings : List BindingSet := []
  indirectParams : Option Nat := none
deriving DecidableEq

/-- MeshletState, include/nvrhi/nvrhi.h lines 2749-2768. -/
structure MeshletState where
  pipeline : Option Nat := none
  framebuffer : Option Framebuffer := none
  viewports : List Nat := []
  scissorRects : List Nat := []
  blendConstantColor : Nat := 0
  dynamicStencilRefValue : Nat := 0
  bindings : List BindingSet := []
  indirectParams : Option Nat := none
deriving DecidableEq

/-- rt::State (ray tracing), reduced to the fields that participate in the
cache reset at the end of setGraphicsState. -/
structure RayTracingState where
  shaderTable : Option Nat := none
  bindings : List BindingSet := []
deriving DecidableEq

/-- DrawArguments, include/nvrhi/nvrhi.h lines 2680-2693. -/
structure DrawArguments where
  vertexCount : Nat := 0
  instanceCount : Nat := 1
  startIndexLocation : Nat := 0
  startVertexLocation : Nat := 0
  startInstanceLocation : Nat := 0
deriving DecidableEq

/-- One call issued to the Vulkan driver (vk::CommandBuffer) or to the
backend barrier encoder. The trace of these events is what the theorems
below inspect. -/
inductive DriverCall where
  | bindGraphicsPipeline (pipeline : Nat)
  | endRendering
  | barrier (b : Barrier)
  | beginRendering (framebuffer : Nat)
  | bindBindingSets (sets : List Nat)
  | setViewport (viewports : List Nat)
  | setScissor (rects : List Nat)
  | setStencilReference (value : Nat)
  | setBlendConstants (color : Nat)
  | bindIndexBuffer (buffer format offset : Nat)
  | bindVertexBuffers (bindings : List VertexBufferBinding)
  | setShadingRate (value : Nat)
  | draw (vertexCount instanceCount startVertexLocation startInstanceLocation : Nat)
  | drawIndexed (vertexCount instanceCount startIndexLocation startVertexLocation startInstanceLocation : Nat)
deriving DecidableEq

/-- The per-command-list mutable state read and written by the functions of
src/vulkan/vulkan-graphics.cpp: the cached state bundles, the volatile
buffer write flag, the automatic barrier switch, and the state tracker. -/
structure CommandListState where
  currentGraphicsState : GraphicsState := {}
  currentComputeState : ComputeState := {}
  currentMeshletState : MeshletState := {}
  currentRayTracingState : RayTracingState := {}
  anyVolatileBufferWrites : Bool := false
  enableAutomaticBarriers : Bool := true
  tracker : StateTracker := { states := [], permanent := [], pendingBarriers := [] }
deriving DecidableEq

/-- CommandList::endRenderPass, src/vulkan/vulkan-graphics.cpp lines
512-520: issue endRendering only if a graphics or meshlet framebuffer is
current, then null both cached framebuffer pointers. -/
def endRenderPass (s : CommandListState) : CommandListState × List DriverCall :=
  if s.currentGraphicsState.framebuffer.isSome || s.currentMeshletState.framebuffer.isSome then
    ({ s with
        currentGraphicsState := { s.currentGraphicsState with framebuffer := none },
        currentMeshletState := { s.currentMeshletState with framebuffer := none } },
      [DriverCall.endRendering])
  else
    (s, [])

/-- CommandList::beginRenderPass, src/vulkan/vulkan-graphics.cpp lines
486-510: first end any active pass, then, for a non-null framebuffer, set
the cached framebuffer pointers and issue beginRendering. -/
def beginRenderPass (s : CommandListState) (fb : Option Framebuffer) :
    CommandListState × List DriverCall :=
  let r := endRenderPass s
  match fb with
  | none => r
  | some framebuffer =>
    ({ r.1 with
        currentGraphicsState := { r.1.currentGraphicsState with framebuffer := some framebuffer },
        currentMeshletState := { r.1.currentMeshletState with framebuffer := some framebuffer } },
      r.2 ++ [DriverCall.beginRendering framebuffer.id])

/-- Modelled from the spec: CommandList::anyBarriers (the barrier plumbing
of the vulkan backend is not among the sources) - whether the pending
barrier list is non-empty. -/
def anyBarriers (s : CommandListState) : Bool :=
  !s.tracker.pendingBarriers.isEmpty

/-- Modelled from the spec: CommandList::commitBarriers (flush of section
4.1) - the pending barriers are issued to the driver in order and the
pending list is cleared. -/
def commitBarriers (s : CommandListState) : CommandListState × List DriverCall :=
  ({ s with tracker := { s.tracker with pendingBarriers := [] } },
    s.tracker.pendingBarriers.map DriverCall.barrier)

/-- The resources referenced by a graphics state with the tracked state each
role implies (spec section 4.2): binding set contents, render targets,
vertex buffers, the index buffer and the indirect-argument buffer. -/
def graphicsStateRequirements (state : GraphicsState) : List (Nat × Nat) :=
  (state.bindings.flatMap (fun bs => bs.resources))
  ++ (match state.framebuffer with
      | some fb => fb.targets.map (fun t => (t, ResourceStates.RenderTarget))
      | none => [])
  ++ state.vertexBuffers.map (fun vb => (vb.buffer, ResourceStates.VertexBuffer))
  ++ (match state.indexBuffer.buffer with
      | some b => [(b, ResourceStates.IndexBuffer)]
      | none => [])
  ++ (match state.indirectParams with
      | some b => [(b, ResourceStates.IndirectArgument)]
      | none => [])

/-- Modelled from the spec: CommandList::trackResourcesAndBarriers (in the
state-tracking translation unit, not among the sources) - requireState once
per referenced resource with its role-implied state (spec section 4.2). -/
def trackResourcesAndBarriers (t : StateTracker) (state : GraphicsState) : StateTracker :=
  (graphicsStateRequirements state).foldl (fun acc p => requireStateNoFail acc p.1 p.2) t

/-- Lines 543-549 of setGraphicsState: bind the pipeline when it differs
from the cached one. -/
def pipelineBindCalls (cachedPipeline : Option GraphicsPipeline) (state : GraphicsState)
    (pso : GraphicsPipeline) : List DriverCall :=
  if cachedPipeline ≠ state.pipeline then [DriverCall.bindGraphicsPipeline pso.id] else []

/-- Lines 566-569 of setGraphicsState: re-bind the binding sets when the
binding array differs or volatile buffer writes happened. -/
def bindingSetsCalls (cachedBindings : List BindingSet) (anyVolatile : Bool)
    (state : GraphicsState) : List DriverCall :=
  if arraysAreDifferent cachedBindings state.bindings || anyVolatile then
    [DriverCall.bindBindingSets (state.bindings.map (fun bs => bs.id))]
  else []

/-- Lines 571-580 of setGraphicsState: set viewports when supplied and
different. -/
def viewportCalls (cachedViewports : List Nat) (state : GraphicsState) : List DriverCall :=
  if !state.viewports.isEmpty && arraysAreDifferent state.viewports cachedViewports then
    [DriverCall.setViewport state.viewports]
  else []

/-- Lines 582-592 of setGraphicsState: set scissor rects when supplied and
different. -/
def scissorCalls (cachedScissors : List Nat) (state : GraphicsState) : List DriverCall :=
  if !state.scissorRects.isEmpty && arraysAreDifferent state.scissorRects cachedScissors then
    [DriverCall.setScissor state.scissorRects]
  else []

/-- Lines 594-597 of setGraphicsState: set the stencil reference when the
pipeline uses a dynamic one and the pipeline was re-bound or the value
differs. -/
def stencilRefCalls (pso : GraphicsPipeline) (updatePipeline : Bool) (cachedValue : Nat)
    (state : GraphicsState) : List DriverCall :=
  if pso.dynamicStencilRef
      && (updatePipeline || decide (cachedValue ≠ state.dynamicStencilRefValue)) then
    [DriverCall.setStencilReference state.dynamicStencilRefValue]
  else []

/-- Lines 599-602 of setGraphicsState: set blend constants when the pipeline
uses them and the pipeline was re-bound or the color differs. -/
def blendConstantCalls (pso : GraphicsPipeline) (updatePipeline : Bool) (cachedColor : Nat)
    (state : GraphicsState) : List DriverCall :=
  if pso.usesBlendConstants
      && (updatePipeline || decide (cachedColor ≠ state.blendConstantColor)) then
    [DriverCall.setBlendConstants state.blendConstantColor]
  else []

/-- Lines 604-612 of setGraphicsState: bind the index buffer when one is
supplied and the binding differs. -/
def indexBufferCalls (cachedIndexBuffer : IndexBufferBinding) (state : GraphicsState) :
    List DriverCall :=
  match state.indexBuffer.buffer with
  | some b =>
    if cachedIndexBuffer ≠ state.indexBuffer then
      [DriverCall.bindIndexBuffer b state.indexBuffer.format state.indexBuffer.offset]
    else []
  | none => []

/-- Lines 614-634 of setGraphicsState: bind vertex buffers when supplied and
different. -/
def vertexBufferCalls (cachedVertexBuffers : List VertexBufferBinding)
    (state : GraphicsState) : List DriverCall :=
  if !state.vertexBuffers.isEmpty
      && arraysAreDifferent state.vertexBuffers cachedVertexBuffers then
    [DriverCall.bindVertexBuffers state.vertexBuffers]
  else []

/-- Lines 641-646 of setGraphicsState: set the fragment shading rate when
enabled (unconditionally re-issued). -/
def shadingRateCalls (state : GraphicsState) : List DriverCall :=
  if state.shadingRateEnabled then [DriverCall.setShadingRate state.shadingRateValue] else []

/-- CommandList::setGraphicsState, src/vulkan/vulkan-graphics.cpp lines
528-653, embedded block by block in source order; each diff-and-issue block
is one of the segment functions above, applied to the cached values the
source reads at that point (the intervening renderpass bookkeeping only
touches the cached framebuffer pointers). The none branch for the pipeline
is unreachable in valid use: the source dereferences the pipeline
unconditionally. -/
def setGraphicsState (s0 : CommandListState) (state : GraphicsState) :
    CommandListState × List DriverCall :=
  match state.pipeline with
  | none => (s0, [])
  | some pso =>
    -- lines 535-538: automatic resource tracking
    let s1 :=
      if s0.enableAutomaticBarriers then
        { s0 with tracker := trackResourcesAndBarriers s0.tracker state }
      else s0
    -- line 540
    let anyB := anyBarriers s1
    -- lines 543-549
    let updatePipeline := decide (s1.currentGraphicsState.pipeline ≠ state.pipeline)
    let calls1 := pipelineBindCalls s1.currentGraphicsState.pipeline state pso
    -- lines 551-554: end the render pass on framebuffer change or pending barriers
    let r2 :=
      if s1.currentGraphicsState.framebuffer ≠ state.framebuffer || anyB then
        endRenderPass s1
      else (s1, [])
    -- line 556
    let r3 := commitBarriers r2.1
    -- lines 558-561
    let r4 :=
      if r3.1.currentGraphicsState.framebuffer.isNone then
        beginRenderPass r3.1 state.framebuffer
      else (r3.1, [])
    let s5 := r4.1
    -- lines 648-652: cache update and reset of the other pipeline kinds
    ({ s5 with
        currentGraphicsState := state,
        currentComputeState := {},
        currentMeshletState := {},
        currentRayTracingState := {},
        anyVolatileBufferWrites := false },
      calls1 ++ r2.2 ++ r3.2 ++ r4.2
        ++ bindingSetsCalls s5.currentGraphicsState.bindings s5.anyVolatileBufferWrites state
        ++ viewportCalls s5.currentGraphicsState.viewports state
        ++ scissorCalls s5.currentGraphicsState.scissorRects state
        ++ stencilRefCalls pso updatePipeline s5.currentGraphicsState.dynamicStencilRefValue state
        ++ blendConstantCalls pso updatePipeline s5.currentGraphicsState.blendConstantColor state
        ++ indexBufferCalls s5.currentGraphicsState.indexBuffer state
        ++ vertexBufferCalls s5.currentGraphicsState.vertexBuffers state
        ++ shadingRateCalls state)

/-- CommandList::updateGraphicsVolatileBuffers, src/vulkan/vulkan-graphics.cpp
lines 655-665: re-bind the cached binding sets when volatile buffer writes
happened since the last bind. -/
def updateGraphicsVolatileBuffers (s : CommandListState) : CommandListState × List DriverCall :=
  if s.anyVolatileBufferWrites && s.currentGraphicsState.pipeline.isSome then
    ({ s with anyVolatileBufferWrites := false },
      [DriverCall.bindBindingSets (s.currentGraphicsState.bindings.map (fun bs => bs.id))])
  else
    (s, [])

/-- CommandList::draw, src/vulkan/vulkan-graphics.cpp lines 667-677. -/
def draw (s : CommandListState) (args : DrawArguments) : CommandListState × List DriverCall :=
  let r := updateGraphicsVolatileBuffers s
  (r.1, r.2 ++ [DriverCall.draw args.vertexCount args.instanceCount
    args.startVertexLocation args.startInstanceLocation])

/-- CommandList::drawIndexed, src/vulkan/vulkan-graphics.cpp lines 679-690. -/
def drawIndexed (s : CommandListState) (args : DrawArguments) :
    CommandListState × List DriverCall :=
  let r := updateGraphicsVolatileBuffers s
  (r.1, r.2 ++ [DriverCall.drawIndexed args.vertexCount args.instanceCount
    args.startIndexLocation args.startVertexLocation args.startInstanceLocation])

/-- Whether a driver call re-binds binding sets, the index buffer, or vertex
buffers (the re-bind calls claim C1 and C2 are about). -/
def DriverCall.isRebind : DriverCall → Bool
  | DriverCall.bindBindingSets _ => true
  | DriverCall.bindIndexBuffer _ _ _ => true
  | DriverCall.bindVertexBuffers _ => true
  | _ => false

/-- Whether a driver call is a graphics pipeline bind. -/
def DriverCall.isPipelineBind : DriverCall → Bool
  | DriverCall.bindGraphicsPipeline _ => true
  | _ => false

/-- Whether a driver call is a barrier handed to the backend encoder. -/
def DriverCall.isBarrier : DriverCall → Bool
  | DriverCall.barrier _ => true
  | _ => false

/-- Whether a driver call begins a render pass. -/
def DriverCall.isPassBegin : DriverCall → Bool
  | DriverCall.beginRendering _ => true
  | _ => false

/-- The pending barrier list as it stands right after the automatic tracking
step at the top of setGraphicsState (lines 535-540). -/
def trackedPending (s : CommandListState) (state : GraphicsState) : List Barrier :=
  if s.enableAutomaticBarriers = true then
    (trackResourcesAndBarriers s.tracker state).pendingBarriers
  else s.tracker.pendingBarriers

-- Concrete objects used by the closed scenario theorems below.

/-- A pipeline with neither dynamic stencil reference nor blend constants. -/
def psoA : GraphicsPipeline := { id := 1, dynamicStencilRef := false, usesBlendConstants := false }

/-- A second such pipeline, distinct from psoA. -/
def psoB : GraphicsPipeline := { id := 2, dynamicStencilRef := false, usesBlendConstants := false }

/-- A pipeline that uses a dynamic stencil reference and blend constants. -/
def psoC : GraphicsPipeline := { id := 3, dynamicStencilRef := true, usesBlendConstants := true }

/-- A framebuffer with no tracked render targets. -/
def fb1 : Framebuffer := { id := 10, targets := [] }

/-- A binding set with no tracked resources. -/
def bs1 : BindingSet := { id := 20, resources := [] }

/-- A vertex buffer binding on buffer 5, slot 0. -/
def vb1 : VertexBufferBinding := { buffer := 5, slot := 0, offset := 0 }

/-- An index buffer binding on buffer 6. -/
def ib1 : IndexBufferBinding := { buffer := some 6, format := 0, offset := 0 }

/-- A complete graphics state on pipeline psoA. -/
def gsA : GraphicsState :=
  { pipeline := some psoA, framebuffer := some fb1, bindings := [bs1],
    vertexBuffers := [vb1], indexBuffer := ib1 }

/-- The same bundle with only the pipeline changed to psoB. -/
def gsB : GraphicsState := { gsA with pipeline := some psoB }

/-- The same bundle with only the pipeline changed to psoC. -/
def gsC : GraphicsState := { gsA with pipeline := some psoC }

/-- A tracker whose states already satisfy every requirement of gsA. -/
def seededTracker : StateTracker :=
  { states := [(5, ResourceStates.VertexBuffer), (6, ResourceStates.IndexBuffer)],
    permanent := [], pendingBarriers := [] }

/-- A command list whose cache holds gsA and whose tracker is fully seeded. -/
def sCached : CommandListState := { currentGraphicsState := gsA, tracker := seededTracker }

/-- A command list with an active render pass whose tracker will demand a
barrier for the index buffer of gsA (buffer 6 is still in VertexBuffer
state). -/
def sActive : CommandListState :=
  { currentGraphicsState := gsA,
    tracker := { states := [(5, ResourceStates.VertexBuffer), (6, ResourceStates.VertexBuffer)],
                 permanent := [], pendingBarriers := [] } }

/-- A pending barrier on buffer 5 - the very buffer bound as the vertex
buffer of gsA - still waiting to move it from CopyDest into the
VertexBuffer state the draw consumes it in. -/
def relevantB : Barrier :=
  { resource := 5, stateBefore := ResourceStates.CopyDest,
    stateAfter := ResourceStates.VertexBuffer }

/-- A command list in the middle of recording with gsA applied, whose
tracker holds an outstanding pending barrier on the bound vertex buffer
(buffer 5): the situation right after a setBufferState(buffer 5,
VertexBuffer) that has not been committed yet. -/
def sRelevant : CommandListState :=
  { currentGraphicsState := gsA,
    tracker := { states := [(5, ResourceStates.VertexBuffer), (6, ResourceStates.IndexBuffer)],
                 permanent := [], pendingBarriers := [relevantB] } }

/-- A device with an empty permanent state registry. -/
def d0 : Device := { permanentRegistry := [] }

/-- A buffer with no automatic state tracking. -/
def bufC : Buffer := { id := 7, desc := {} }

/-- The session obtained from a fresh session of d0 by pinning bufC to the
CopySource state. -/
def pinnedSession : Session :=
  { tracker := { states := [(7, ResourceStates.CopySource)],
                 permanent := [(7, ResourceStates.CopySource)],
                 pendingBarriers := [{ resource := 7, stateBefore := ResourceStates.Unknown,
                                       stateAfter := ResourceStates.CopySource }] },
    proposedPermanent := [(7, ResourceStates.CopySource)],
    trackedKeep := [], emitted := [] }

/-- The buffer of the keepInitialState scenario: created in CopyDest with
automatic state tracking. -/
def bufB : Buffer :=
  { id := 3, desc := { initialState := ResourceStates.CopyDest, keepInitialState := true } }

/-- A freshly opened session. -/
def sessB0 : Session :=
  { tracker := { states := [], permanent := [], pendingBarriers := [] },
    proposedPermanent := [], trackedKeep := [], emitted := [] }

/-- The session after requiring bufB in CopySource: bufB was seeded from its
initial state CopyDest, one barrier CopyDest to CopySource is pending, and
bufB is flagged for restore at close. -/
def sessB1 : Session :=
  { tracker := { states := [(3, ResourceStates.CopySource)], permanent := [],
                 pendingBarriers := [{ resource := 3, stateBefore := ResourceStates.CopyDest,
                                       stateAfter := ResourceStates.CopySource }] },
    proposedPermanent := [], trackedKeep := [bufB], emitted := [] }

/-- A tracker that already holds buffer 9 in the CopySource state. -/
def trackerC5 : StateTracker :=
  { states := [(9, ResourceStates.CopySource)], permanent := [], pendingBarriers := [] }

/-- trackerC5 after pinning buffer 9 to CopySource (already current, so no
barrier is added). -/
def trackerC5p : StateTracker :=
  { states := [(9, ResourceStates.CopySource)], permanent := [(9, ResourceStates.CopySource)],
    pendingBarriers := [] }

/-- A tracker that holds buffer 9 in the CopyDest state, nothing pending. -/
def trackerC8 : StateTracker :=
  { states := [(9, ResourceStates.CopyDest)], permanent := [], pendingBarriers := [] }

/-- trackerC8 after requiring buffer 9 in CopySource. -/
def trackerC8r : StateTracker :=
  { states := [(9, ResourceStates.CopySource)], permanent := [],
    pendingBarriers := [{ resource := 9, stateBefore := ResourceStates.CopyDest,
                          stateAfter := ResourceStates.CopySource }] }

-- Bookkeeping lemmas: the renderpass functions only touch the cached
-- framebuffer pointers, and the barrier commit only touches the tracker.

@[simp]
theorem endRenderPass_fst_graphics (s : CommandListState) :
    (endRenderPass s).1.currentGraphicsState
      = { s.currentGraphicsState with framebuffer := none } := by
  unfold endRenderPass
  split
  · rfl
  · next h =>
    have e1 : s.currentGraphicsState.framebuffer = none := by
      cases hfb : s.currentGraphicsState.framebuffer with
      | none => rfl
      | some f => simp [hfb] at h
    rw [← e1]

@[simp]
theorem endRenderPass_fst_meshlet (s : CommandListState) :
    (endRenderPass s).1.currentMeshletState
      = { s.currentMeshletState with framebuffer := none } := by
  unfold endRenderPass
  split
  · rfl
  · next h =>
    have e2 : s.currentMeshletState.framebuffer = none := by
      cases hfb : s.currentMeshletState.framebuffer with
      | none => rfl
      | some f => simp [hfb] at h
    rw [← e2]

@[simp]
theorem endRenderPass_fst_tracker (s : CommandListState) :
    (endRenderPass s).1.tracker = s.tracker := by
  unfold endRenderPass
  split <;> rfl

@[simp]
theorem endRenderPass_fst_anyVolatile (s : CommandListState) :
    (endRenderPass s).1.anyVolatileBufferWrites = s.anyVolatileBufferWrites := by
  unfold endRenderPass
  split <;> rfl

@[simp]
theorem endRenderPass_fst_enableAuto (s : CommandListState) :
    (endRenderPass s).1.enableAutomaticBarriers = s.enableAutomaticBarriers := by
  unfold endRenderPass
  split <;> rfl

@[simp]
theorem endRenderPass_snd (s : CommandListState) :
    (endRenderPass s).2 =
      if s.currentGraphicsState.framebuffer.isSome || s.currentMeshletState.framebuffer.isSome then
        [DriverCall.endRendering]
      else [] := by
  unfold endRenderPass
  split <;> simp_all

@[simp]
theorem beginRenderPass_fst_graphics (s : CommandListState) (fb : Option Framebuffer) :
    (beginRenderPass s fb).1.currentGraphicsState
      = { s.currentGraphicsState with framebuffer := fb } := by
  cases fb <;> simp [beginRenderPass]

@[simp]
theorem beginRenderPass_fst_meshlet (s : CommandListState) (fb : Option Framebuffer) :
    (beginRenderPass s fb).1.currentMeshletState
      = { s.currentMeshletState with framebuffer := fb } := by
  cases fb <;> simp [beginRenderPass]

@[simp]
theorem beginRenderPass_fst_tracker (s : CommandListState) (fb : Option Framebuffer) :
    (beginRenderPass s fb).1.tracker = s.tracker := by
  cases fb <;> simp [beginRenderPass]

@[simp]
theorem beginRenderPass_fst_anyVolatile (s : CommandListState) (fb : Option Framebuffer) :
    (beginRenderPass s fb).1.anyVolatileBufferWrites = s.anyVolatileBufferWrites := by
  cases fb <;> simp [beginRenderPass]

@[simp]
theorem beginRenderPass_fst_enableAuto (s : CommandListState) (fb : Option Framebuffer) :
    (beginRenderPass s fb).1.enableAutomaticBarriers = s.enableAutomaticBarriers := by
  cases fb <;> simp [beginRenderPass]

@[simp]
theorem beginRenderPass_snd (s : CommandListState) (fb : Option Framebuffer) :
    (beginRenderPass s fb).2 =
      (endRenderPass s).2 ++
        (match fb with
          | some f => [DriverCall.beginRendering f.id]
          | none => []) := by
  cases fb <;> simp [beginRenderPass]

@[simp]
theorem commitBarriers_fst_graphics (s : CommandListState) :
    (commitBarriers s).1.currentGraphicsState = s.currentGraphicsState := rfl

@[simp]
theorem commitBarriers_fst_meshlet (s : CommandListState) :
    (commitBarriers s).1.currentMeshletState = s.currentMeshletState := rfl

@[simp]
theorem commitBarriers_fst_anyVolatile (s : CommandListState) :
    (commitBarriers s).1.anyVolatileBufferWrites = s.anyVolatileBufferWrites := rfl

@[simp]
theorem commitBarriers_fst_enableAuto (s : CommandListState) :
    (commitBarriers s).1.enableAutomaticBarriers = s.enableAutomaticBarriers := rfl

@[simp]
theorem commitBarriers_fst_pending (s : CommandListState) :
    (commitBarriers s).1.tracker.pendingBarriers = [] := rfl

@[simp]
theorem commitBarriers_snd (s : CommandListState) :
    (commitBarriers s).2 = s.tracker.pendingBarriers.map DriverCall.barrier := rfl




@[simp]
theorem ite_fst (c : Prop) [Decidable c] (a b : CommandListState × List DriverCall) :
    (if c then a else b).1 = if c then a.1 else b.1 := by
  split <;> rfl

@[simp]
theorem ite_snd (c : Prop) [Decidable c] (a b : CommandListState × List DriverCall) :
    (if c then a else b).2 = if c then a.2 else b.2 := by
  split <;> rfl

@[simp]
theorem ite_currentGraphicsState (c : Prop) [Decidable c] (a b : CommandListState) :
    (if c then a else b).currentGraphicsState
      = if c then a.currentGraphicsState else b.currentGraphicsState := by
  split <;> rfl

@[simp]
theorem ite_currentMeshletState (c : Prop) [Decidable c] (a b : CommandListState) :
    (if c then a else b).currentMeshletState
      = if c then a.currentMeshletState else b.currentMeshletState := by
  split <;> rfl

@[simp]
theorem ite_tracker (c : Prop) [Decidable c] (a b : CommandListState) :
    (if c then a else b).tracker = if c then a.tracker else b.tracker := by
  split <;> rfl

@[simp]
theorem ite_anyVolatile (c : Prop) [Decidable c] (a b : CommandListState) :
    (if c then a else b).anyVolatileBufferWrites
      = if c then a.anyVolatileBufferWrites else b.anyVolatileBufferWrites := by
  split <;> rfl

@[simp]
theorem ite_gs_pipeline (c : Prop) [Decidable c] (a b : GraphicsState) :
    (if c then a else b).pipeline = if c then a.pipeline else b.pipeline := by
  split <;> rfl

@[simp]
theorem ite_gs_framebuffer (c : Prop) [Decidable c] (a b : GraphicsState) :
    (if c then a else b).framebuffer = if c then a.framebuffer else b.framebuffer := by
  split <;> rfl

@[simp]
theorem ite_gs_bindings (c : Prop) [Decidable c] (a b : GraphicsState) :
    (if c then a else b).bindings = if c then a.bindings else b.bindings := by
  split <;> rfl

@[simp]
theorem ite_gs_viewports (c : Prop) [Decidable c] (a b : GraphicsState) :
    (if c then a else b).viewports = if c then a.viewports else b.viewports := by
  split <;> rfl

@[simp]
theorem ite_gs_scissorRects (c : Prop) [Decidable c] (a b : GraphicsState) :
    (if c then a else b).scissorRects = if c then a.scissorRects else b.scissorRects := by
  split <;> rfl

@[simp]
theorem ite_gs_stencilRef (c : Prop) [Decidable c] (a b : GraphicsState) :
    (if c then a else b).dynamicStencilRefValue
      = if c then a.dynamicStencilRefValue else b.dynamicStencilRefValue := by
  split <;> rfl

@[simp]
theorem ite_gs_blendColor (c : Prop) [Decidable c] (a b : GraphicsState) :
    (if c then a else b).blendConstantColor
      = if c then a.blendConstantColor else b.blendConstantColor := by
  split <;> rfl

@[simp]
theorem ite_gs_indexBuffer (c : Prop) [Decidable c] (a b : GraphicsState) :
    (if c then a else b).indexBuffer = if c then a.indexBuffer else b.indexBuffer := by
  split <;> rfl

@[simp]
theorem ite_gs_vertexBuffers (c : Prop) [Decidable c] (a b : GraphicsState) :
    (if c then a else b).vertexBuffers = if c then a.vertexBuffers else b.vertexBuffers := by
  split <;> rfl

@[simp]
theorem ite_ms_framebuffer (c : Prop) [Decidable c] (a b : MeshletState) :
    (if c then a else b).framebuffer = if c then a.framebuffer else b.framebuffer := by
  split <;> rfl

@[simp]
theorem ite_tr_pending (c : Prop) [Decidable c] (a b : StateTracker) :
    (if c then a else b).pendingBarriers
      = if c then a.pendingBarriers else b.pendingBarriers := by
  split <;> rfl

@[simp]
theorem ite_countP (c : Prop) [Decidable c] (p : DriverCall → Bool) (a b : List DriverCall) :
    (if c then a else b).countP p = if c then a.countP p else b.countP p := by
  split <;> rfl

@[simp]
theorem isRebind_endRendering : DriverCall.endRendering.isRebind = false := rfl

@[simp]
theorem isRebind_beginRendering (i : Nat) : (DriverCall.beginRendering i).isRebind = false := rfl

@[simp]
theorem isRebind_barrier (b : Barrier) : (DriverCall.barrier b).isRebind = false := rfl

@[simp]
theorem countP_isRebind_pipelineBindCalls (c : Option GraphicsPipeline) (st : GraphicsState)
    (p : GraphicsPipeline) :
    (pipelineBindCalls c st p).countP (fun c => c.isRebind) = 0 := by
  unfold pipelineBindCalls
  split <;> simp [DriverCall.isRebind]

@[simp]
theorem countP_isRebind_viewportCalls (v : List Nat) (st : GraphicsState) :
    (viewportCalls v st).countP (fun c => c.isRebind) = 0 := by
  unfold viewportCalls
  split <;> simp [DriverCall.isRebind]

@[simp]
theorem countP_isRebind_scissorCalls (v : List Nat) (st : GraphicsState) :
    (scissorCalls v st).countP (fun c => c.isRebind) = 0 := by
  unfold scissorCalls
  split <;> simp [DriverCall.isRebind]

@[simp]
theorem countP_isRebind_stencilRefCalls (p : GraphicsPipeline) (u : Bool) (v : Nat)
    (st : GraphicsState) :
    (stencilRefCalls p u v st).countP (fun c => c.isRebind) = 0 := by
  unfold stencilRefCalls
  split <;> simp [DriverCall.isRebind]

@[simp]
theorem countP_isRebind_blendConstantCalls (p : GraphicsPipeline) (u : Bool) (v : Nat)
    (st : GraphicsState) :
    (blendConstantCalls p u v st).countP (fun c => c.isRebind) = 0 := by
  unfold blendConstantCalls
  split <;> simp [DriverCall.isRebind]

@[simp]
theorem countP_isRebind_shadingRateCalls (st : GraphicsState) :
    (shadingRateCalls st).countP (fun c => c.isRebind) = 0 := by
  unfold shadingRateCalls
  split <;> simp [DriverCall.isRebind]

@[simp]
theorem countP_isRebind_map_barrier (l : List Barrier) :
    (l.map DriverCall.barrier).countP (fun c => c.isRebind) = 0 := by
  induction l with
  | nil => rfl
  | cons b t ih => simp [DriverCall.isRebind, ih]

@[simp]
theorem countP_isRebind_bindingSetsCalls (b : List BindingSet) (a : Bool) (st : GraphicsState) :
    (bindingSetsCalls b a st).countP (fun c => c.isRebind) = (bindingSetsCalls b a st).length := by
  unfold bindingSetsCalls
  split <;> simp [DriverCall.isRebind]

@[simp]
theorem countP_isRebind_indexBufferCalls (ib : IndexBufferBinding) (st : GraphicsState) :
    (indexBufferCalls ib st).countP (fun c => c.isRebind) = (indexBufferCalls ib st).length := by
  unfold indexBufferCalls
  split
  · split <;> simp [DriverCall.isRebind]
  · simp

@[simp]
theorem countP_isRebind_vertexBufferCalls (vb : List VertexBufferBinding) (st : GraphicsState) :
    (vertexBufferCalls vb st).countP (fun c => c.isRebind) = (vertexBufferCalls vb st).length := by
  unfold vertexBufferCalls
  split <;> simp [DriverCall.isRebind]

theorem setGraphicsState_rebind_count (s : CommandListState) (state : GraphicsState)
    (pso : GraphicsPipeline) (h : state.pipeline = some pso) :
    ((setGraphicsState s state).2.countP (fun c => c.isRebind)) =
      (bindingSetsCalls s.currentGraphicsState.bindings s.anyVolatileBufferWrites state).length
      + (indexBufferCalls s.currentGraphicsState.indexBuffer state).length
      + (vertexBufferCalls s.currentGraphicsState.vertexBuffers state).length := by
  simp only [setGraphicsState, h]
  simp only [List.countP_append]
  simp [anyBarriers]
  intro _
  cases state.framebuffer <;> simp



@[simp]
theorem isPipelineBind_endRendering : DriverCall.endRendering.isPipelineBind = false := rfl

@[simp]
theorem isPipelineBind_beginRendering (i : Nat) :
    (DriverCall.beginRendering i).isPipelineBind = false := rfl

@[simp]
theorem isPipelineBind_barrier (b : Barrier) :
    (DriverCall.barrier b).isPipelineBind = false := rfl

@[simp]
theorem countP_isPipelineBind_map_barrier (l : List Barrier) :
    (l.map DriverCall.barrier).countP (fun c => c.isPipelineBind) = 0 := by
  induction l with
  | nil => rfl
  | cons b t ih => simp [ih]

@[simp]
theorem countP_isPipelineBind_bindingSetsCalls (b : List BindingSet) (a : Bool)
    (st : GraphicsState) :
    (bindingSetsCalls b a st).countP (fun c => c.isPipelineBind) = 0 := by
  unfold bindingSetsCalls
  split <;> simp [DriverCall.isPipelineBind]

@[simp]
theorem countP_isPipelineBind_viewportCalls (v : List Nat) (st : GraphicsState) :
    (viewportCalls v st).countP (fun c => c.isPipelineBind) = 0 := by
  unfold viewportCalls
  split <;> simp [DriverCall.isPipelineBind]

@[simp]
theorem countP_isPipelineBind_scissorCalls (v : List Nat) (st : GraphicsState) :
    (scissorCalls v st).countP (fun c => c.isPipelineBind) = 0 := by
  unfold scissorCalls
  split <;> simp [DriverCall.isPipelineBind]

@[simp]
theorem countP_isPipelineBind_stencilRefCalls (p : GraphicsPipeline) (u : Bool) (v : Nat)
    (st : GraphicsState) :
    (stencilRefCalls p u v st).countP (fun c => c.isPipelineBind) = 0 := by
  unfold stencilRefCalls
  split <;> simp [DriverCall.isPipelineBind]

@[simp]
theorem countP_isPipelineBind_blendConstantCalls (p : GraphicsPipeline) (u : Bool) (v : Nat)
    (st : GraphicsState) :
    (blendConstantCalls p u v st).countP (fun c => c.isPipelineBind) = 0 := by
  unfold blendConstantCalls
  split <;> simp [DriverCall.isPipelineBind]

@[simp]
theorem countP_isPipelineBind_indexBufferCalls (ib : IndexBufferBinding) (st : GraphicsState) :
    (indexBufferCalls ib st).countP (fun c => c.isPipelineBind) = 0 := by
  unfold indexBufferCalls
  split
  · split <;> simp [DriverCall.isPipelineBind]
  · simp

@[simp]
theorem countP_isPipelineBind_vertexBufferCalls (vb : List VertexBufferBinding)
    (st : GraphicsState) :
    (vertexBufferCalls vb st).countP (fun c => c.isPipelineBind) = 0 := by
  unfold vertexBufferCalls
  split <;> simp [DriverCall.isPipelineBind]

@[simp]
theorem countP_isPipelineBind_shadingRateCalls (st : GraphicsState) :
    (shadingRateCalls st).countP (fun c => c.isPipelineBind) = 0 := by
  unfold shadingRateCalls
  split <;> simp [DriverCall.isPipelineBind]

@[simp]
theorem countP_isPipelineBind_pipelineBindCalls (c : Option GraphicsPipeline)
    (st : GraphicsState) (p : GraphicsPipeline) :
    (pipelineBindCalls c st p).countP (fun c => c.isPipelineBind)
      = (pipelineBindCalls c st p).length := by
  unfold pipelineBindCalls
  split <;> simp [DriverCall.isPipelineBind]

@[simp]
theorem countP_isPipelineBind_comp_barrier (l : List Barrier) :
    List.countP ((fun c => c.isPipelineBind) ∘ DriverCall.barrier) l = 0 := by
  induction l with
  | nil => rfl
  | cons b t ih => simp [List.countP_cons, ih, Function.comp]

theorem setGraphicsState_pipeline_count (s : CommandListState) (state : GraphicsState)
    (pso : GraphicsPipeline) (h : state.pipeline = some pso) :
    ((setGraphicsState s state).2.countP (fun c => c.isPipelineBind)) =
      (pipelineBindCalls s.currentGraphicsState.pipeline state pso).length := by
  simp only [setGraphicsState, h]
  simp only [List.countP_append]
  simp [anyBarriers]
  all_goals cases hfb : state.framebuffer <;> simp [hfb]

theorem setGraphicsState_fst_graphics (s : CommandListState) (state : GraphicsState)
    (pso : GraphicsPipeline) (h : state.pipeline = some pso) :
    (setGraphicsState s state).1.currentGraphicsState = state := by
  simp only [setGraphicsState, h]

theorem setGraphicsState_fst_volatile (s : CommandListState) (state : GraphicsState)
    (pso : GraphicsPipeline) (h : state.pipeline = some pso) :
    (setGraphicsState s state).1.anyVolatileBufferWrites = false := by
  simp only [setGraphicsState, h]

theorem setGraphicsState_fst_pending (s : CommandListState) (state : GraphicsState)
    (pso : GraphicsPipeline) (h : state.pipeline = some pso) :
    (setGraphicsState s state).1.tracker.pendingBarriers = [] := by
  simp only [setGraphicsState, h]
  simp

@[simp]
theorem pipelineBindCalls_same (st : GraphicsState) (p : GraphicsPipeline) :
    pipelineBindCalls st.pipeline st p = [] := by
  simp [pipelineBindCalls]

@[simp]
theorem bindingSetsCalls_same (st : GraphicsState) :
    bindingSetsCalls st.bindings false st = [] := by
  simp [bindingSetsCalls, arraysAreDifferent]

@[simp]
theorem indexBufferCalls_same (st : GraphicsState) :
    indexBufferCalls st.indexBuffer st = [] := by
  unfold indexBufferCalls
  split
  · simp
  · rfl

@[simp]
theorem vertexBufferCalls_same (st : GraphicsState) :
    vertexBufferCalls st.vertexBuffers st = [] := by
  simp [vertexBufferCalls, arraysAreDifferent]


@[simp]
theorem isBarrier_endRendering : DriverCall.endRendering.isBarrier = false := rfl

@[simp]
theorem isBarrier_beginRendering (i : Nat) : (DriverCall.beginRendering i).isBarrier = false := rfl

@[simp]
theorem countP_isBarrier_pipelineBindCalls (c : Option GraphicsPipeline) (st : GraphicsState)
    (p : GraphicsPipeline) :
    (pipelineBindCalls c st p).countP (fun c => c.isBarrier) = 0 := by
  unfold pipelineBindCalls
  split <;> simp [DriverCall.isBarrier]

@[simp]
theorem countP_isBarrier_bindingSetsCalls (b : List BindingSet) (a : Bool) (st : GraphicsState) :
    (bindingSetsCalls b a st).countP (fun c => c.isBarrier) = 0 := by
  unfold bindingSetsCalls
  split <;> simp [DriverCall.isBarrier]

@[simp]
theorem countP_isBarrier_viewportCalls (v : List Nat) (st : GraphicsState) :
    (viewportCalls v st).countP (fun c => c.isBarrier) = 0 := by
  unfold viewportCalls
  split <;> simp [DriverCall.isBarrier]

@[simp]
theorem countP_isBarrier_scissorCalls (v : List Nat) (st : GraphicsState) :
    (scissorCalls v st).countP (fun c => c.isBarrier) = 0 := by
  unfold scissorCalls
  split <;> simp [DriverCall.isBarrier]

@[simp]
theorem countP_isBarrier_stencilRefCalls (p : GraphicsPipeline) (u : Bool) (v : Nat)
    (st : GraphicsState) :
    (stencilRefCalls p u v st).countP (fun c => c.isBarrier) = 0 := by
  unfold stencilRefCalls
  split <;> simp [DriverCall.isBarrier]

@[simp]
theorem countP_isBarrier_blendConstantCalls (p : GraphicsPipeline) (u : Bool) (v : Nat)
    (st : GraphicsState) :
    (blendConstantCalls p u v st).countP (fun c => c.isBarrier) = 0 := by
  unfold blendConstantCalls
  split <;> simp [DriverCall.isBarrier]

@[simp]
theorem countP_isBarrier_indexBufferCalls (ib : IndexBufferBinding) (st : GraphicsState) :
    (indexBufferCalls ib st).countP (fun c => c.isBarrier) = 0 := by
  unfold indexBufferCalls
  split
  · split <;> simp [DriverCall.isBarrier]
  · simp

@[simp]
theorem countP_isBarrier_vertexBufferCalls (vb : List VertexBufferBinding) (st : GraphicsState) :
    (vertexBufferCalls vb st).countP (fun c => c.isBarrier) = 0 := by
  unfold vertexBufferCalls
  split <;> simp [DriverCall.isBarrier]

@[simp]
theorem countP_isBarrier_shadingRateCalls (st : GraphicsState) :
    (shadingRateCalls st).countP (fun c => c.isBarrier) = 0 := by
  unfold shadingRateCalls
  split <;> simp [DriverCall.isBarrier]

@[simp]
theorem countP_isPassBegin_pipelineBindCalls (c : Option GraphicsPipeline) (st : GraphicsState)
    (p : GraphicsPipeline) :
    (pipelineBindCalls c st p).countP (fun c => c.isPassBegin) = 0 := by
  unfold pipelineBindCalls
  split <;> simp [DriverCall.isPassBegin]

theorem setGraphicsState_mem_stencilRef (s : CommandListState) (state : GraphicsState)
    (pso : GraphicsPipeline) (h : state.pipeline = some pso)
    (h1 : pso.dynamicStencilRef = true)
    (h2 : s.currentGraphicsState.pipeline ≠ state.pipeline) :
    DriverCall.setStencilReference state.dynamicStencilRefValue ∈ (setGraphicsState s state).2 := by
  rw [h] at h2
  simp only [setGraphicsState, h]
  simp [List.mem_append, stencilRefCalls, h1, h2, h]

theorem setGraphicsState_mem_blendConstants (s : CommandListState) (state : GraphicsState)
    (pso : GraphicsPipeline) (h : state.pipeline = some pso)
    (h1 : pso.usesBlendConstants = true)
    (h2 : s.currentGraphicsState.pipeline ≠ state.pipeline) :
    DriverCall.setBlendConstants state.blendConstantColor ∈ (setGraphicsState s state).2 := by
  rw [h] at h2
  simp only [setGraphicsState, h]
  simp [List.mem_append, blendConstantCalls, h1, h2, h]

theorem setGraphicsState_mem_pipelineBind (s : CommandListState) (state : GraphicsState)
    (pso : GraphicsPipeline) (h : state.pipeline = some pso)
    (h2 : s.currentGraphicsState.pipeline ≠ state.pipeline) :
    DriverCall.bindGraphicsPipeline pso.id ∈ (setGraphicsState s state).2 := by
  rw [h] at h2
  simp only [setGraphicsState, h]
  simp [List.mem_append, pipelineBindCalls, h2, h]

theorem setGraphicsState_barrier_ordering_key (s : CommandListState) (state : GraphicsState)
    (pso : GraphicsPipeline) (h : state.pipeline = some pso)
    (hActive : (s.currentGraphicsState.framebuffer.isSome
      || s.currentMeshletState.framebuffer.isSome) = true)
    (hPending : trackedPending s state ≠ []) :
    (setGraphicsState s state).2 =
      pipelineBindCalls s.currentGraphicsState.pipeline state pso
      ++ [DriverCall.endRendering]
      ++ (trackedPending s state).map DriverCall.barrier
      ++ ((match state.framebuffer with
            | some f => [DriverCall.beginRendering f.id]
            | none => [])
          ++ bindingSetsCalls s.currentGraphicsState.bindings s.anyVolatileBufferWrites state
          ++ viewportCalls s.currentGraphicsState.viewports state
          ++ scissorCalls s.currentGraphicsState.scissorRects state
          ++ stencilRefCalls pso (decide (s.currentGraphicsState.pipeline ≠ state.pipeline))
              s.currentGraphicsState.dynamicStencilRefValue state
          ++ blendConstantCalls pso (decide (s.currentGraphicsState.pipeline ≠ state.pipeline))
              s.currentGraphicsState.blendConstantColor state
          ++ indexBufferCalls s.currentGraphicsState.indexBuffer state
          ++ vertexBufferCalls s.currentGraphicsState.vertexBuffers state
          ++ shadingRateCalls state) := by
  have hne : (trackedPending s state).isEmpty = false := by
    cases htp : trackedPending s state with
    | nil => exact absurd htp hPending
    | cons a t => rfl
  unfold trackedPending at hne
  simp only [setGraphicsState, h]
  simp [anyBarriers, hne, hActive, trackedPending]

theorem endRenderPass_inactive (x : CommandListState)
    (hg : x.currentGraphicsState.framebuffer = none)
    (hm : x.currentMeshletState.framebuffer = none) :
    endRenderPass x = (x, []) := by
  unfold endRenderPass
  rw [if_neg]
  simp [hg, hm]

@[simp]
theorem pipelineBindCalls_length_le (c : Option GraphicsPipeline) (st : GraphicsState)
    (p : GraphicsPipeline) :
    (pipelineBindCalls c st p).length ≤ 1 := by
  unfold pipelineBindCalls
  split <;> simp

@[simp]
theorem isBarrier_bindBindingSets (l : List Nat) :
    (DriverCall.bindBindingSets l).isBarrier = false := rfl

@[simp]
theorem isBarrier_draw (a b c d : Nat) : (DriverCall.draw a b c d).isBarrier = false := rfl

@[simp]
theorem isBarrier_drawIndexed (a b c d e : Nat) :
    (DriverCall.drawIndexed a b c d e).isBarrier = false := rfl

set_option maxHeartbeats 2000000 in
/-- C1: counterexample. With a fully seeded tracker and a cached state equal
to the new one in everything but the pipeline, setGraphicsState issues only
the pipeline bind: the binding sets, vertex buffers, index buffer and
dynamic state are NOT re-issued, contradicting the claimed full re-bind. -/
theorem pipeline_change_full_rebind_cex :
    sCached.currentGraphicsState.pipeline ≠ gsB.pipeline
    ∧ (setGraphicsState sCached gsB).2 = [DriverCall.bindGraphicsPipeline 2] := by
  exact ⟨by decide, by decide⟩

/-- C1: (amended) when the pipeline differs from the cached one,
setGraphicsState re-issues the pipeline bind and the dynamic state (stencil
reference when the pipeline declares a dynamic stencil reference, blend
constants when it uses them), but binding sets, vertex buffers and the index
buffer are NOT re-issued when they equal the cached values and no volatile
buffer writes are flagged. -/
theorem pipeline_change_rebinds_only_dynamic_state (s : CommandListState)
    (state : GraphicsState) (pso : GraphicsPipeline) (h : state.pipeline = some pso)
    (hPipe : s.currentGraphicsState.pipeline ≠ state.pipeline)
    (hBind : s.currentGraphicsState.bindings = state.bindings)
    (hVol : s.anyVolatileBufferWrites = false)
    (hIb : s.currentGraphicsState.indexBuffer = state.indexBuffer)
    (hVb : s.currentGraphicsState.vertexBuffers = state.vertexBuffers) :
    DriverCall.bindGraphicsPipeline pso.id ∈ (setGraphicsState s state).2
    ∧ (setGraphicsState s state).2.countP (fun c => c.isRebind) = 0
    ∧ (pso.dynamicStencilRef = true →
        DriverCall.setStencilReference state.dynamicStencilRefValue ∈ (setGraphicsState s state).2)
    ∧ (pso.usesBlendConstants = true →
        DriverCall.setBlendConstants state.blendConstantColor ∈ (setGraphicsState s state).2) := by
  refine ⟨setGraphicsState_mem_pipelineBind s state pso h hPipe, ?_,
    fun h1 => setGraphicsState_mem_stencilRef s state pso h h1 hPipe,
    fun h1 => setGraphicsState_mem_blendConstants s state pso h h1 hPipe⟩
  rw [setGraphicsState_rebind_count s state pso h, hBind, hVol, hIb, hVb]
  simp

/-- C1: witness for the amended theorem at a concrete input. -/
theorem pipeline_change_rebinds_only_dynamic_state_witness :
    DriverCall.bindGraphicsPipeline psoC.id ∈ (setGraphicsState sCached gsC).2
    ∧ (setGraphicsState sCached gsC).2.countP (fun c => c.isRebind) = 0
    ∧ (psoC.dynamicStencilRef = true →
        DriverCall.setStencilReference gsC.dynamicStencilRefValue ∈ (setGraphicsState sCached gsC).2)
    ∧ (psoC.usesBlendConstants = true →
        DriverCall.setBlendConstants gsC.blendConstantColor ∈ (setGraphicsState sCached gsC).2) :=
  pipeline_change_rebinds_only_dynamic_state sCached gsC psoC rfl (by decide) rfl rfl rfl rfl

/-- C2: calling setGraphicsState twice with the same bundle issues the
pipeline bind at most once across the two calls, and the second call issues
zero re-bind driver calls for binding sets, vertex buffers and the index
buffer. -/
theorem setGraphicsState_twice_idempotent (s : CommandListState) (state : GraphicsState)
    (pso : GraphicsPipeline) (h : state.pipeline = some pso) :
    ((setGraphicsState s state).2
        ++ (setGraphicsState (setGraphicsState s state).1 state).2).countP
      (fun c => c.isPipelineBind) ≤ 1
    ∧ (setGraphicsState (setGraphicsState s state).1 state).2.countP
        (fun c => c.isRebind) = 0 := by
  have h1 := setGraphicsState_fst_graphics s state pso h
  have h2 := setGraphicsState_fst_volatile s state pso h
  constructor
  · rw [List.countP_append, setGraphicsState_pipeline_count s state pso h,
      setGraphicsState_pipeline_count _ state pso h, h1]
    simp
  · rw [setGraphicsState_rebind_count _ state pso h, h1, h2]
    simp

/-- C2: witness at a concrete input. -/
theorem setGraphicsState_twice_idempotent_witness :
    ((setGraphicsState {} gsA).2
        ++ (setGraphicsState (setGraphicsState {} gsA).1 gsA).2).countP
      (fun c => c.isPipelineBind) ≤ 1
    ∧ (setGraphicsState (setGraphicsState {} gsA).1 gsA).2.countP
        (fun c => c.isRebind) = 0 :=
  setGraphicsState_twice_idempotent {} gsA psoA rfl

/-- C3: when a render pass is active and the diffing left pending barriers,
the trace of setGraphicsState ends the render pass, then commits every
pending barrier, and only afterwards (never before the barriers) begins the
new render pass; no barrier is issued outside that block. -/
theorem setGraphicsState_flushes_before_renderpass (s : CommandListState)
    (state : GraphicsState) (pso : GraphicsPipeline) (h : state.pipeline = some pso)
    (hActive : (s.currentGraphicsState.framebuffer.isSome
      || s.currentMeshletState.framebuffer.isSome) = true)
    (hPending : trackedPending s state ≠ []) :
    ∃ pre post,
      (setGraphicsState s state).2 =
        pre ++ [DriverCall.endRendering]
          ++ (trackedPending s state).map DriverCall.barrier ++ post
      ∧ pre.countP (fun c => c.isBarrier) = 0
      ∧ post.countP (fun c => c.isBarrier) = 0
      ∧ pre.countP (fun c => c.isPassBegin) = 0 := by
  have key := setGraphicsState_barrier_ordering_key s state pso h hActive hPending
  refine ⟨_, _, key, ?_, ?_, ?_⟩
  · simp
  · simp only [List.countP_append]
    cases state.framebuffer <;> simp
  · simp

/-- C3: witness at a concrete input (active render pass, one barrier needed
to move buffer 6 into the IndexBuffer state). -/
theorem setGraphicsState_flushes_before_renderpass_witness :
    ∃ pre post,
      (setGraphicsState sActive gsA).2 =
        pre ++ [DriverCall.endRendering]
          ++ (trackedPending sActive gsA).map DriverCall.barrier ++ post
      ∧ pre.countP (fun c => c.isBarrier) = 0
      ∧ post.countP (fun c => c.isBarrier) = 0
      ∧ pre.countP (fun c => c.isPassBegin) = 0 :=
  setGraphicsState_flushes_before_renderpass sActive gsA psoA rfl (by decide) (by decide)

/-- C4: counterexample. The draw entry point does not flush pending barriers
relevant to the operation: here the outstanding barrier is on buffer 5, the
very vertex buffer bound by the current graphics state that the draw will
fetch from, yet draw issues only the native draw call and leaves that
barrier pending. -/
theorem draw_with_pending_barriers_cex :
    sRelevant.currentGraphicsState.vertexBuffers = [vb1]
    ∧ relevantB.resource = vb1.buffer
    ∧ sRelevant.tracker.pendingBarriers = [relevantB]
    ∧ anyBarriers sRelevant = true
    ∧ (draw sRelevant {}).2 = [DriverCall.draw 0 1 0 0]
    ∧ (draw sRelevant {}).1.tracker.pendingBarriers = [relevantB] := by
  exact ⟨rfl, rfl, rfl, rfl, by decide, by decide⟩

/-- C4: (amended) the draw entry points never flush: draw and drawIndexed
leave the tracker untouched and issue no barrier; the flush before a draw is
the one performed by setGraphicsState, which leaves the pending list empty. -/
theorem draw_entry_points_do_not_flush (s : CommandListState) (args : DrawArguments)
    (state : GraphicsState) (pso : GraphicsPipeline) (h : state.pipeline = some pso) :
    (draw s args).1.tracker = s.tracker
    ∧ (draw s args).2.countP (fun c => c.isBarrier) = 0
    ∧ (drawIndexed s args).1.tracker = s.tracker
    ∧ (drawIndexed s args).2.countP (fun c => c.isBarrier) = 0
    ∧ (setGraphicsState s state).1.tracker.pendingBarriers = [] := by
  refine ⟨?_, ?_, ?_, ?_, setGraphicsState_fst_pending s state pso h⟩
  all_goals simp [draw, drawIndexed, updateGraphicsVolatileBuffers]

/-- C4: witness at a concrete input. -/
theorem draw_entry_points_do_not_flush_witness :
    (draw sRelevant {}).1.tracker = sRelevant.tracker
    ∧ (draw sRelevant {}).2.countP (fun c => c.isBarrier) = 0
    ∧ (drawIndexed sRelevant {}).1.tracker = sRelevant.tracker
    ∧ (drawIndexed sRelevant {}).2.countP (fun c => c.isBarrier) = 0
    ∧ (setGraphicsState sRelevant gsA).1.tracker.pendingBarriers = [] :=
  draw_entry_points_do_not_flush sRelevant {} gsA psoA rfl

/-- C9: after applying a graphics state, setGraphicsState resets the cached
compute, meshlet and ray-tracing states to their defaults and clears the
volatile-buffer-writes flag. -/
theorem setGraphicsState_resets_other_pipeline_caches (s : CommandListState)
    (state : GraphicsState) (pso : GraphicsPipeline) (h : state.pipeline = some pso) :
    (setGraphicsState s state).1.currentComputeState = ({} : ComputeState)
    ∧ (setGraphicsState s state).1.currentMeshletState = ({} : MeshletState)
    ∧ (setGraphicsState s state).1.currentRayTracingState = ({} : RayTracingState)
    ∧ (setGraphicsState s state).1.anyVolatileBufferWrites = false := by
  simp only [setGraphicsState, h]
  simp

/-- C9: witness at a concrete input. -/
theorem setGraphicsState_resets_other_pipeline_caches_witness :
    (setGraphicsState sCached gsA).1.currentComputeState = ({} : ComputeState)
    ∧ (setGraphicsState sCached gsA).1.currentMeshletState = ({} : MeshletState)
    ∧ (setGraphicsState sCached gsA).1.currentRayTracingState = ({} : RayTracingState)
    ∧ (setGraphicsState sCached gsA).1.anyVolatileBufferWrites = false :=
  setGraphicsState_resets_other_pipeline_caches sCached gsA psoA rfl

/-- C10: endRenderPass issues the driver endRendering call exactly when a
graphics or meshlet framebuffer is active, nulls both cached framebuffer
pointers, and is idempotent (a second consecutive call changes nothing and
issues no driver call); beginRenderPass always performs the endRenderPass
step first, so at most one render pass is ever active. -/
theorem renderpass_at_most_one_active (s : CommandListState) (fb : Option Framebuffer) :
    ((endRenderPass s).2 =
      if s.currentGraphicsState.framebuffer.isSome || s.currentMeshletState.framebuffer.isSome
      then [DriverCall.endRendering] else [])
    ∧ (endRenderPass s).1.currentGraphicsState.framebuffer = none
    ∧ (endRenderPass s).1.currentMeshletState.framebuffer = none
    ∧ endRenderPass (endRenderPass s).1 = ((endRenderPass s).1, [])
    ∧ ∃ tail, (beginRenderPass s fb).2 = (endRenderPass s).2 ++ tail
        ∧ DriverCall.endRendering ∉ tail := by
  refine ⟨endRenderPass_snd s, by simp, by simp, ?_, ?_⟩
  · exact endRenderPass_inactive (endRenderPass s).1 (by simp) (by simp)
  · cases fb with
    | none => exact ⟨[], by simp [beginRenderPass], by simp⟩
    | some f => exact ⟨[DriverCall.beginRendering f.id], by simp, by simp⟩

@[simp]
theorem ite_trk_permanent (c : Prop) [Decidable c] (a b : StateTracker) :
    (if c then a else b).permanent = if c then a.permanent else b.permanent := by
  split <;> rfl

@[simp]
theorem lookupState_setState (st : List (Nat × Nat)) (r v : Nat) :
    lookupState (setState st r v) r = v := by
  simp [lookupState, setState, List.find?]

theorem pinPermanent_find (t t2 : StateTracker) (r X : Nat)
    (hpin : pinPermanent t r X = Except.ok t2) :
    t2.permanent.find? (fun p => p.1 = r) = some (r, X) := by
  unfold pinPermanent at hpin
  split at hpin
  next p hf =>
    split at hpin
    next hx =>
      injection hpin with h12
      subst h12
      have hp1 : p.1 = r := by
        have hs := List.find?_some hf
        simpa using hs
      have hpx : p = (r, X) := Prod.ext hp1 hx.symm
      rw [hf, hpx]
    next hx =>
      exact absurd hpin (by simp)
  next hf =>
    injection hpin with h12
    subst h12
    simp [List.find?_append, hf, List.find?]

/-- C5: once a resource is pinned to permanent state X, a subsequent
requireState with any Y distinct from X fails with PermanentStateViolation,
and requireState with X succeeds as a no-op leaving the tracker (including
its pending barrier list) unchanged. -/
theorem permanent_pin_enforcement (t t2 : StateTracker) (r X Y : Nat)
    (hpin : pinPermanent t r X = Except.ok t2) (hY : Y ≠ X) :
    requireState t2 r Y = Except.error TrackerError.PermanentStateViolation
    ∧ requireState t2 r X = Except.ok t2 := by
  have hfind := pinPermanent_find t t2 r X hpin
  constructor
  · simp [requireState, hfind, hY]
  · simp [requireState, hfind]

/-- C5: witness at a concrete input (buffer 9 pinned to CopySource). -/
theorem permanent_pin_enforcement_witness :
    requireState trackerC5p 9 ResourceStates.CopyDest
      = Except.error TrackerError.PermanentStateViolation
    ∧ requireState trackerC5p 9 ResourceStates.CopySource = Except.ok trackerC5p :=
  permanent_pin_enforcement trackerC5 trackerC5p 9 ResourceStates.CopySource
    ResourceStates.CopyDest rfl (by decide)

/-- C6: counterexample. A pin performed inside a session does not create a
registry entry at pin time: discarding the session leaves the registry
without the entry; only executing the session commits it. -/
theorem permanent_pin_discard_cex :
    (d0.openSession).pinPermanentBuffer bufC ResourceStates.CopySource = Except.ok pinnedSession
    ∧ (d0.discardSession pinnedSession).permanentRegistry = []
    ∧ (d0.executeSession pinnedSession).permanentRegistry = [(7, ResourceStates.CopySource)] := by
  exact ⟨rfl, rfl, rfl⟩

/-- C6: (amended) a Permanent State Registry entry is created when the
pinning command list is executed; discarding the session without executing
abandons the pin and leaves the registry unchanged; once committed, the
entry is removed only by destroying the resource. -/
theorem permanent_pin_commits_on_execute (d : Device) (sess sess2 : Session) (b : Buffer)
    (X : Nat) (hpin : sess.pinPermanentBuffer b X = Except.ok sess2) :
    (b.id, X) ∈ (d.executeSession sess2).permanentRegistry
    ∧ d.discardSession sess2 = d
    ∧ ((d.executeSession sess2).destroyResource b.id).permanentRegistry.find?
        (fun p => p.1 = b.id) = none := by
  have hprop : sess2.proposedPermanent = sess.proposedPermanent ++ [(b.id, X)] := by
    unfold Session.pinPermanentBuffer at hpin
    cases hp : pinPermanent sess.tracker b.id X with
    | ok t2 =>
      rw [hp] at hpin
      injection hpin with h12
      subst h12
      rfl
    | error e =>
      rw [hp] at hpin
      exact absurd hpin (by simp)
  refine ⟨?_, rfl, ?_⟩
  · unfold Device.executeSession
    simp [hprop]
  · unfold Device.executeSession Device.destroyResource
    rw [List.find?_eq_none]
    intro x hx
    simp only [List.mem_filter] at hx
    simpa using hx.2

/-- C6: witness for the amended theorem at a concrete input. -/
theorem permanent_pin_commits_on_execute_witness :
    (bufC.id, ResourceStates.CopySource) ∈ (d0.executeSession pinnedSession).permanentRegistry
    ∧ d0.discardSession pinnedSession = d0
    ∧ ((d0.executeSession pinnedSession).destroyResource bufC.id).permanentRegistry.find?
        (fun p => p.1 = bufC.id) = none :=
  permanent_pin_commits_on_execute d0 d0.openSession pinnedSession bufC
    ResourceStates.CopySource rfl

/-- C7: buffer B created with initialState CopyDest and keepInitialState:
requiring CopySource in a fresh session leaves exactly one pending barrier
CopyDest to CopySource; after the copy's flush, close auto-emits the
restore barrier CopySource to CopyDest in its final flush, and the tracked
state after close is CopyDest. -/
theorem keepInitialState_restore_scenario :
    sessB0.requireBufferState bufB ResourceStates.CopySource = Except.ok sessB1
    ∧ sessB1.tracker.pendingBarriers =
        [{ resource := 3, stateBefore := ResourceStates.CopyDest,
           stateAfter := ResourceStates.CopySource }]
    ∧ sessB1.flushBarriers.close.emitted =
        [{ resource := 3, stateBefore := ResourceStates.CopyDest,
           stateAfter := ResourceStates.CopySource },
         { resource := 3, stateBefore := ResourceStates.CopySource,
           stateAfter := ResourceStates.CopyDest }]
    ∧ sessB1.flushBarriers.close.tracker.pendingBarriers = []
    ∧ sessB1.flushBarriers.close.queryBufferState bufB = ResourceStates.CopyDest := by
  exact ⟨rfl, rfl, rfl, rfl, rfl⟩

/-- C8: requireState is idempotent on the pending barrier list: for a
non-permanent resource with no barrier already pending, two consecutive
identical calls leave exactly one pending barrier for the resource, or zero
when the requested state already equals the tracked state; the second call
is a complete no-op. -/
theorem requireState_idempotent (t t1 : StateTracker) (r X : Nat)
    (hperm : t.permanent.find? (fun p => p.1 = r) = none)
    (hnop : t.pendingBarriers.countP (fun b => decide (b.resource = r)) = 0)
    (h1 : requireState t r X = Except.ok t1) :
    requireState t1 r X = Except.ok t1
    ∧ t1.pendingBarriers.countP (fun b => decide (b.resource = r))
        = (if lookupState t.states r = X then 0 else 1) := by
  unfold requireState at h1
  rw [hperm] at h1
  by_cases hc : lookupState t.states r = X
  · rw [if_pos hc] at h1
    injection h1 with h12
    subst h12
    constructor
    · unfold requireState
      rw [hperm, if_pos hc]
    · rw [if_pos hc]
      exact hnop
  · rw [if_neg hc] at h1
    injection h1 with h12
    subst h12
    have hany : t.pendingBarriers.any (fun b => decide (b.resource = r)) = false := by
      rw [List.countP_eq_zero] at hnop
      rw [List.any_eq_false]
      intro x hx
      simpa using hnop x hx
    constructor
    · simp [requireState, hperm]
    · rw [if_neg hc]
      unfold addOrMergeBarrier
      rw [if_neg]
      · rw [List.countP_append, hnop]
        simp
      · simp [hany]

/-- C8: witness at a concrete input (buffer 9 moved from CopyDest to
CopySource). -/
theorem requireState_idempotent_witness :
    requireState trackerC8r 9 ResourceStates.CopySource = Except.ok trackerC8r
    ∧ trackerC8r.pendingBarriers.countP (fun b => decide (b.resource = 9))
        = (if lookupState trackerC8.states 9 = ResourceStates.CopySource then 0 else 1) :=
  requireState_idempotent trackerC8 trackerC8r 9 ResourceStates.CopySource rfl rfl rfl

end NVRHI
